import Mathlib

/-!
Verification of the process-supervision subsystem of a desktop software
center (Rust sources under src/ui/: installworker.rs, updateworker.rs,
updatepage.rs, window.rs).  The Rust message handlers are embedded as pure
Lean functions: the handler's state transition is explicit state passing,
the behaviour of a spawned asynchronous task is a function of the external
process's result, and message emission is a list of output messages.
-/

namespace NixSC

/-! ## Data model

WorkPkg is the work item defined in pkgpage.rs (not shown here); its
fields are those read by the workers and the dispatcher: pkg (attribute),
pname, pkgtype (scope), action and block.
-/

inductive InstallType
  | User
  | System
  deriving DecidableEq, Repr

inductive PkgAction
  | Install
  | Remove
  deriving DecidableEq, Repr

structure WorkPkg where
  pkg : String
  pname : String
  pkgtype : InstallType
  action : PkgAction
  block : Bool
  deriving DecidableEq, Repr

/-- Outcome messages the install worker sends back to the package page
(the two PkgMsg constructors appearing in installworker.rs). -/
inductive PkgMsg
  | FinishedProcess (work : WorkPkg)
  | FailedProcess (work : WorkPkg)
  deriving DecidableEq, Repr

/-- Result of running one external process, as seen by the supervising
task: the spawn call fails, or the process is waited on and exits with a
code (success() of the Rust ExitStatus is true exactly for code 0;
signal-terminated processes report a non-zero placeholder code), or the
wait itself errors. -/
inductive ProcResult
  | spawnErr
  | exited (code : Nat)
  | waitErr
  deriving DecidableEq, Repr

/-- Result of one supervising async task: it either panicked (a Rust
.expect firing inside the task) or ran to completion emitting a list of
output messages. -/
inductive TaskOutcome
  | panicked
  | completed (outputs : List PkgMsg)
  deriving DecidableEq, Repr

/-! ## Install worker (installworker.rs) -/

/-- State of InstallAsyncHandler (installworker.rs lines 9-14): the
JoinHandle field is modelled by which work item's task it supervises. -/
structure InstallAsyncHandler where
  process : Option WorkPkg
  work : Option WorkPkg
  pid : Option Nat
  deriving DecidableEq, Repr

/-- The initial handler state (installworker.rs init, lines 31-38). -/
def initHandler : InstallAsyncHandler :=
  { process := none, work := none, pid := none }

inductive InstallAsyncHandlerMsg
  | Process (work : WorkPkg)
  | CancelProcess
  | SetPid (pid : Option Nat)
  deriving DecidableEq, Repr

/-- Command line of the user-scope install task (installworker.rs lines
52-60). -/
def installCmd (work : WorkPkg) : List String :=
  ["nix", "profile", "install", "nixpkgs#" ++ work.pkg, "--impure"]

/-- Command line of the user-scope remove task (installworker.rs lines
91-98). -/
def removeCmd (work : WorkPkg) : List String :=
  ["nix", "profile", "remove", "legacyPackages.x86_64-linux." ++ work.pkg]

/-- Behaviour of the async task spawned for a user-scope install or
remove (installworker.rs lines 51-86 and 90-124).  Both arms have the
same outcome structure: spawn is followed by .expect, so a spawn failure
panics the task and nothing is emitted; otherwise stderr is drained and
the exit status decides between one FinishedProcess and one
FailedProcess; a wait error yields one FailedProcess. -/
def installTaskRun (work : WorkPkg) (r : ProcResult) : TaskOutcome :=
  match r with
  | .spawnErr => .panicked
  | .exited code =>
      if code = 0 then .completed [.FinishedProcess work]
      else .completed [.FailedProcess work]
  | .waitErr => .completed [.FailedProcess work]

/-- The update handler of InstallAsyncHandler (installworker.rs lines
40-145).  Returns the new state, the messages emitted synchronously, and
the work item whose supervising task was spawned (if any); self.reset()
in the source only clears tracker change flags.  A blocking work item
returns immediately; a user-scope item spawns the install or remove task
and stores its handle; a system-scope item emits one FailedProcess and
spawns nothing; CancelProcess aborts any stored handle and clears the
handle and pid fields; SetPid stores the pid. -/
def installUpdate (s : InstallAsyncHandler) (msg : InstallAsyncHandlerMsg) :
    InstallAsyncHandler × List PkgMsg × Option WorkPkg :=
  match msg with
  | .Process work =>
      if work.block then (s, [], none)
      else
        match work.pkgtype with
        | .User =>
            match work.action with
            | .Install => ({ s with process := some work }, [], some work)
            | .Remove => ({ s with process := some work }, [], some work)
        | .System => (s, [.FailedProcess work], none)
  | .CancelProcess => ({ s with process := none, pid := none }, [], none)
  | .SetPid pid => ({ s with pid := pid }, [], none)

/-! ## Update worker (updateworker.rs) -/

/-- Outcome messages the update worker sends to the update page (the two
UpdatePageMsg constructors emitted in updateworker.rs). -/
inductive UpdatePageOut
  | DoneWorking
  | FailedWorking
  deriving DecidableEq, Repr

/-- Command line of the bulk remove pass (updateworker.rs lines 73-84). -/
def profileRemoveCmd (rmpkgs : List String) : List String :=
  ["nix", "profile", "remove"]
    ++ rmpkgs.map (fun x => "legacyPackages.x86_64-linux." ++ x)
    ++ ["--impure"]

/-- Command line of the upgrade-all pass (updateworker.rs lines 97-103). -/
def profileUpgradeCmd : List String :=
  ["nix", "profile", "upgrade", ".*", "--impure"]

/-- The upgrade-all pass at the end of updateprofile (updateworker.rs
lines 97-116): the command is issued unconditionally; a spawn or wait
error propagates as Err; otherwise Ok(success()) is returned.  The first
component accumulates the commands issued, in order. -/
def upgradePass (trace : List (List String)) (upRes : ProcResult) :
    List (List String) × Except Unit Bool :=
  match upRes with
  | .spawnErr => (trace ++ [profileUpgradeCmd], .error ())
  | .exited code => (trace ++ [profileUpgradeCmd], .ok (code == 0))
  | .waitErr => (trace ++ [profileUpgradeCmd], .error ())

/-- updateprofile (updateworker.rs lines 70-117) as a function of the two
external process results.  With a non-empty removal list the remove
command is issued first; its spawn or wait error propagates as Err via
the question-mark operator, but its exit status is never inspected, so
any exit code falls through to the upgrade pass.  With None or an empty
list only the upgrade pass runs. -/
def updateprofile (rmpkgs : Option (List String)) (rmRes upRes : ProcResult) :
    List (List String) × Except Unit Bool :=
  match rmpkgs with
  | some l =>
      if l.isEmpty then upgradePass [] upRes
      else
        match rmRes with
        | .spawnErr => ([profileRemoveCmd l], .error ())
        | .exited _ => upgradePass [profileRemoveCmd l] upRes
        | .waitErr => ([profileRemoveCmd l], .error ())
  | none => upgradePass [] upRes

/-- The async task spawned for UpdateUserPkgs (rmpkgs = none) or
UpdateUserPkgsRemove (rmpkgs = some pkgs) in updateworker.rs lines 38-65:
it matches only on Ok versus Err of updateprofile, so the Bool carried by
Ok is discarded — Ok(_) yields DoneWorking and Err yields FailedWorking. -/
def updateTaskRun (rmpkgs : Option (List String)) (rmRes upRes : ProcResult) :
    List UpdatePageOut :=
  match (updateprofile rmpkgs rmRes upRes).2 with
  | .ok _ => [.DoneWorking]
  | .error _ => [.FailedWorking]

/-! ## Window dispatcher busy set (window.rs) -/

/-- The busy-set key of a work item (window.rs lines 1163-1166 and
1171-1174): pname for a user-scope item, pkg for a system-scope item. -/
def busyKey (work : WorkPkg) : String :=
  match work.pkgtype with
  | .User => work.pname
  | .System => work.pkg

/-- AppMsg::AddInstalledToWorkQueue (window.rs lines 1162-1169): pushes
the (key, scope) pair onto installedpagebusy unconditionally, then
forwards the work to the package page. -/
def addInstalledToWorkQueue (busy : List (String × InstallType))
    (work : WorkPkg) : List (String × InstallType) :=
  busy ++ [(busyKey work, work.pkgtype)]

/-- AppMsg::RemoveInstalledBusy (window.rs lines 1170-1178): the retain
predicate keeps exactly the entries whose key differs from the work's key
AND whose scope differs from the work's scope. -/
def removeInstalledBusy (busy : List (String × InstallType))
    (work : WorkPkg) : List (String × InstallType) :=
  busy.filter
    (fun e => decide (e.1 ≠ busyKey work) && decide (e.2 ≠ work.pkgtype))

/-! ## Update page dispatch (updatepage.rs) -/

inductive UpdateType
  | User
  | System
  deriving DecidableEq, Repr

/-- AppMsg constructors emitted by the UpdateAllUser handler; the second
argument of GetUnavailableItems is the HashMap::new() passed in the
source, modelled as an association list. -/
inductive AppOutMsg
  | CheckNetwork
  | GetUnavailableItems (pkgs : List String) (extra : List (String × String))
      (t : UpdateType)
  deriving DecidableEq, Repr

inductive UpdateAsyncHandlerMsg
  | UpdateUserPkgs
  | UpdateUserPkgsRemove (pkgs : List String)
  deriving DecidableEq, Repr

/-- UpdatePageMsg::UpdateAllUser (updatepage.rs lines 215-233) as a
function of the connectivity check and of the unavailable-packages query
result (an error from the query defaults to the empty list before this
point, by unwrap_or_default).  Returns the messages sent to the update
worker and the messages sent to the application output. -/
def updateAllUser (online : Bool) (unavailable : List String) :
    List UpdateAsyncHandlerMsg × List AppOutMsg :=
  if !online then ([], [.CheckNetwork])
  else if unavailable.isEmpty then ([.UpdateUserPkgs], [])
  else ([], [.GetUnavailableItems unavailable [] .User])

/-! ## Concrete work items used by witnesses and counterexamples -/

def htopUser : WorkPkg :=
  { pkg := "htop", pname := "htop", pkgtype := .User, action := .Install,
    block := false }

def vimRemove : WorkPkg :=
  { pkg := "vim", pname := "vim", pkgtype := .User, action := .Remove,
    block := false }

def sysBlocked : WorkPkg :=
  { pkg := "foo", pname := "foo", pkgtype := .System, action := .Install,
    block := true }

/-! ## Claims -/

/-- Claim C1 (code evaluated at the failing input): with busy set
[(htop, User), (vim, User)], observing the outcome of the htop work item
removes BOTH entries — the retain predicate keeps only entries differing
in key AND scope, so the (vim, User) entry, which shares the User scope,
is removed as well, contradicting the claim that every other entry is
left unchanged.  The intended predicate is the De Morgan dual. -/
theorem removeInstalledBusy_c1_bug :
    removeInstalledBusy
      [("htop", InstallType.User), ("vim", InstallType.User)] htopUser
      = [] ∧
    removeInstalledBusy
      [("htop", InstallType.User), ("vim", InstallType.User)] htopUser
      ≠ [("vim", InstallType.User)] := by
  constructor
  · rfl
  · decide

/-- Claim C2 (code evaluated at the failing input): when the upgrade-all
process exits with status 1, updateprofile returns Ok(false), the caller
matches Ok(_), and the task emits DoneWorking — not the FailedWorking the
claim requires for a non-zero exit status. -/
theorem updateTaskRun_c2_bug :
    (updateprofile none (ProcResult.exited 0) (ProcResult.exited 1)).2
      = Except.ok false ∧
    updateTaskRun none (ProcResult.exited 0) (ProcResult.exited 1)
      = [UpdatePageOut.DoneWorking] := by
  constructor
  · rfl
  · rfl

/-- Claim C3 counterexample: in the install worker a spawn failure hits
the .expect and panics the supervising task, so no FailedProcess message
is emitted for that work item — the outcome is silently dropped, refuting
the claim that every accepted user-scope work item whose spawn fails
yields exactly one Failed outcome. -/
theorem installTask_spawnErr_counterexample :
    installTaskRun htopUser ProcResult.spawnErr = TaskOutcome.panicked ∧
    installTaskRun htopUser ProcResult.spawnErr
      ≠ TaskOutcome.completed [PkgMsg.FailedProcess htopUser] := by
  constructor
  · rfl
  · decide

/-- Claim C3 as amended: spawn-failure reporting differs by worker.  In
the install worker a spawn failure panics the supervising task and no
outcome message is emitted; in the bulk-upgrade worker a spawn failure of
either the remove pass (non-empty removal list) or the upgrade pass
propagates as Err and the task emits exactly one FailedWorking, scoped to
that one operation. -/
theorem spawn_failure_c3_amended (work : WorkPkg) (l : List String)
    (rmRes upRes : ProcResult) (h : l.isEmpty = false) :
    installTaskRun work ProcResult.spawnErr = TaskOutcome.panicked ∧
    updateTaskRun (some l) ProcResult.spawnErr upRes
      = [UpdatePageOut.FailedWorking] ∧
    updateTaskRun none rmRes ProcResult.spawnErr
      = [UpdatePageOut.FailedWorking] := by
  refine ⟨rfl, ?_, rfl⟩
  simp [updateTaskRun, updateprofile, h]

/-- Witness for spawn_failure_c3_amended at a concrete removal list. -/
theorem spawn_failure_c3_amended_witness :
    (["vim"] : List String).isEmpty = false ∧
    (installTaskRun htopUser ProcResult.spawnErr = TaskOutcome.panicked ∧
     updateTaskRun (some ["vim"]) ProcResult.spawnErr (ProcResult.exited 0)
       = [UpdatePageOut.FailedWorking] ∧
     updateTaskRun none (ProcResult.exited 0) ProcResult.spawnErr
       = [UpdatePageOut.FailedWorking]) :=
  ⟨rfl, spawn_failure_c3_amended htopUser ["vim"]
    (ProcResult.exited 0) (ProcResult.exited 0) rfl⟩

/-- Claim C4: a non-blocking user-scope work item (Install or Remove) is
accepted — the handler spawns its supervising task — and that task emits
exactly one outcome: one FinishedProcess when the process exits 0, one
FailedProcess when it exits non-zero, and one FailedProcess when the wait
errors. -/
theorem install_outcome_c4 (s : InstallAsyncHandler) (work : WorkPkg)
    (code : Nat) (hb : work.block = false)
    (hu : work.pkgtype = InstallType.User) :
    (installUpdate s (InstallAsyncHandlerMsg.Process work)).2.2 = some work ∧
    installTaskRun work (ProcResult.exited code)
      = TaskOutcome.completed
          [if code = 0 then PkgMsg.FinishedProcess work
           else PkgMsg.FailedProcess work] ∧
    installTaskRun work ProcResult.waitErr
      = TaskOutcome.completed [PkgMsg.FailedProcess work] := by
  refine ⟨?_, ?_, rfl⟩
  · cases hac : work.action <;> simp [installUpdate, hb, hu, hac]
  · by_cases hc : code = 0 <;> simp [installTaskRun, hc]

/-- Witness for install_outcome_c4 at the htop install item. -/
theorem install_outcome_c4_witness :
    htopUser.block = false ∧ htopUser.pkgtype = InstallType.User ∧
    ((installUpdate initHandler
        (InstallAsyncHandlerMsg.Process htopUser)).2.2 = some htopUser ∧
     installTaskRun htopUser (ProcResult.exited 0)
       = TaskOutcome.completed
           [if 0 = 0 then PkgMsg.FinishedProcess htopUser
            else PkgMsg.FailedProcess htopUser] ∧
     installTaskRun htopUser ProcResult.waitErr
       = TaskOutcome.completed [PkgMsg.FailedProcess htopUser]) :=
  ⟨rfl, rfl, install_outcome_c4 initHandler htopUser 0 rfl rfl⟩

/-- Claim C5 counterexample: a system-scope work item with the blocking
flag set is returned on before the scope match, so no FailedProcess is
emitted, refuting the claim for every system-scope work item. -/
theorem submit_system_c5_counterexample :
    (installUpdate initHandler
      (InstallAsyncHandlerMsg.Process sysBlocked)).2.1 = [] ∧
    (installUpdate initHandler
      (InstallAsyncHandlerMsg.Process sysBlocked)).2.1
      ≠ [PkgMsg.FailedProcess sysBlocked] := by
  constructor
  · rfl
  · decide

/-- Claim C5 as amended: for every NON-BLOCKING system-scope work item,
submit immediately emits exactly one FailedProcess, spawns no task, and
leaves the handler state (including the process handle) unchanged. -/
theorem submit_system_c5_amended (s : InstallAsyncHandler) (work : WorkPkg)
    (hb : work.block = false) (hs : work.pkgtype = InstallType.System) :
    installUpdate s (InstallAsyncHandlerMsg.Process work)
      = (s, [PkgMsg.FailedProcess work], none) := by
  simp [installUpdate, hb, hs]

/-- Witness for submit_system_c5_amended at a concrete system item. -/
theorem submit_system_c5_amended_witness :
    ({ sysBlocked with block := false } : WorkPkg).block = false ∧
    ({ sysBlocked with block := false } : WorkPkg).pkgtype
      = InstallType.System ∧
    installUpdate initHandler
        (InstallAsyncHandlerMsg.Process { sysBlocked with block := false })
      = (initHandler,
         [PkgMsg.FailedProcess { sysBlocked with block := false }], none) :=
  ⟨rfl, rfl,
   submit_system_c5_amended initHandler { sysBlocked with block := false }
     rfl rfl⟩

/-- Claim C6: a work item with the blocking flag set is returned on
immediately — no task is spawned, no message is emitted, and the handler
state (process handle and pid included) is unchanged. -/
theorem submit_blocking_c6 (s : InstallAsyncHandler) (work : WorkPkg)
    (hb : work.block = true) :
    installUpdate s (InstallAsyncHandlerMsg.Process work) = (s, [], none) := by
  simp [installUpdate, hb]

/-- Witness for submit_blocking_c6 at the blocked system item. -/
theorem submit_blocking_c6_witness :
    sysBlocked.block = true ∧
    installUpdate initHandler (InstallAsyncHandlerMsg.Process sysBlocked)
      = (initHandler, [], none) :=
  ⟨rfl, submit_blocking_c6 initHandler sysBlocked rfl⟩

/-- Claim C7: with a non-empty removal list and any exit status of the
remove process, updateprofile issues first the remove command naming
exactly the listed packages and then the upgrade-all command, whatever
the upgrade's result; with None or an empty removal list only the
upgrade-all command is issued. -/
theorem updateprofile_order_c7 (l : List String) (c : Nat)
    (rmRes upRes : ProcResult) (h : l.isEmpty = false) :
    (updateprofile (some l) (ProcResult.exited c) upRes).1
      = [profileRemoveCmd l, profileUpgradeCmd] ∧
    (updateprofile none rmRes upRes).1 = [profileUpgradeCmd] ∧
    (updateprofile (some []) rmRes upRes).1 = [profileUpgradeCmd] := by
  refine ⟨?_, ?_, ?_⟩
  · cases upRes <;> simp [updateprofile, upgradePass, h]
  · cases upRes <;> simp [updateprofile, upgradePass]
  · cases upRes <;> simp [updateprofile, upgradePass]

/-- Witness for updateprofile_order_c7 at a concrete removal list and a
failing remove exit status. -/
theorem updateprofile_order_c7_witness :
    (["vim"] : List String).isEmpty = false ∧
    ((updateprofile (some ["vim"]) (ProcResult.exited 1)
        (ProcResult.exited 0)).1
       = [profileRemoveCmd ["vim"], profileUpgradeCmd] ∧
     (updateprofile none (ProcResult.exited 1) (ProcResult.exited 0)).1
       = [profileUpgradeCmd] ∧
     (updateprofile (some []) (ProcResult.exited 1)
        (ProcResult.exited 0)).1 = [profileUpgradeCmd]) :=
  ⟨rfl, updateprofile_order_c7 ["vim"] 1 (ProcResult.exited 1)
    (ProcResult.exited 0) rfl⟩

/-- Claim C8: CancelProcess clears both the process handle and the pid,
emits no outcome message, and a subsequent non-blocking user-scope submit
is accepted (its task is spawned) — no busy state survives cancellation. -/
theorem cancel_clears_c8 (s : InstallAsyncHandler) (work : WorkPkg)
    (hb : work.block = false) (hu : work.pkgtype = InstallType.User) :
    installUpdate s InstallAsyncHandlerMsg.CancelProcess
      = ({ s with process := none, pid := none }, [], none) ∧
    (installUpdate (installUpdate s InstallAsyncHandlerMsg.CancelProcess).1
        (InstallAsyncHandlerMsg.Process work)).2.2 = some work := by
  refine ⟨rfl, ?_⟩
  cases hac : work.action <;> simp [installUpdate, hb, hu, hac]

/-- Witness for cancel_clears_c8 on a state holding an active handle. -/
theorem cancel_clears_c8_witness :
    vimRemove.block = false ∧ vimRemove.pkgtype = InstallType.User ∧
    (installUpdate { process := some htopUser, work := none, pid := some 7 }
        InstallAsyncHandlerMsg.CancelProcess
      = ({ process := none, work := none, pid := none }, [], none) ∧
     (installUpdate
        (installUpdate
          { process := some htopUser, work := none, pid := some 7 }
          InstallAsyncHandlerMsg.CancelProcess).1
        (InstallAsyncHandlerMsg.Process vimRemove)).2.2 = some vimRemove) :=
  ⟨rfl, rfl,
   cancel_clears_c8 { process := some htopUser, work := none, pid := some 7 }
     vimRemove rfl rfl⟩

/-- Claim C9 counterexample: starting from the empty busy set, enqueuing
the htop work item twice yields two identical (htop, User) entries — the
dispatcher appends unconditionally, so a duplicate enqueue is neither
rejected nor coalesced, refuting the claimed invariant. -/
theorem busyset_duplicate_c9_counterexample :
    addInstalledToWorkQueue (addInstalledToWorkQueue [] htopUser) htopUser
      = [("htop", InstallType.User), ("htop", InstallType.User)] := rfl

/-- Claim C9 as amended: AddInstalledToWorkQueue always increases the
multiplicity of the work item's (key, scope) pair by exactly one — an
enqueue for a pair already in the busy set produces a duplicate entry
rather than being rejected or coalesced. -/
theorem addInstalled_count_c9_amended (busy : List (String × InstallType))
    (work : WorkPkg) :
    (addInstalledToWorkQueue busy work).count (busyKey work, work.pkgtype)
      = busy.count (busyKey work, work.pkgtype) + 1 := by
  simp [addInstalledToWorkQueue]

/-- Claim C10: processed while online, UpdateAllUser dispatches the bulk
upgrade to the worker exactly when the unavailable-packages query result
is empty; when it is non-empty no worker message is sent and a single
GetUnavailableItems carrying that set is emitted instead. -/
theorem updateAllUser_c10 (unavailable : List String) :
    (unavailable.isEmpty = true →
      updateAllUser true unavailable
        = ([UpdateAsyncHandlerMsg.UpdateUserPkgs], [])) ∧
    (unavailable.isEmpty = false →
      updateAllUser true unavailable
        = ([], [AppOutMsg.GetUnavailableItems unavailable [] UpdateType.User]))
    := by
  constructor
  · intro h
    simp [updateAllUser, h]
  · intro h
    simp [updateAllUser, h]

/-- Witness for updateAllUser_c10 at an empty and a non-empty query
result. -/
theorem updateAllUser_c10_witness :
    (([] : List String).isEmpty = true ∧
      updateAllUser true [] = ([UpdateAsyncHandlerMsg.UpdateUserPkgs], [])) ∧
    ((["hello"] : List String).isEmpty = false ∧
      updateAllUser true ["hello"]
        = ([],
           [AppOutMsg.GetUnavailableItems ["hello"] [] UpdateType.User])) :=
  ⟨⟨rfl, (updateAllUser_c10 []).1 rfl⟩,
   ⟨rfl, (updateAllUser_c10 ["hello"]).2 rfl⟩⟩

end NixSC
